import Mathlib

/-!
Verification of the plotting helpers in `plots_matplotlib.py` and
`plots_plotly.py` from the Anomaly-Detection-Demo repository.

The drawing surfaces (matplotlib `Axes`/`Figure`, plotly `Figure`) are
embedded as explicit records of the elements and layout settings the code
can put on them; Python in-place mutation followed by `return ax` becomes
a record update that preserves an `objId` field, which models Python
object identity (`id(ax)`).  pandas `DataFrame`s are an index plus named
columns; operations that can raise in pandas (missing-column lookup,
length-mismatched column assignment, boolean-mask row selection with a
wrong-length mask) return `Except String`.  Scalar values and timestamps
are embedded as `Int`.
-/

set_option autoImplicit false

/-- A pandas `DataFrame`: a time-like index plus named value columns. -/
structure DataFrame where
  index : List Int
  cols : List (String × List Int)
deriving DecidableEq, Repr

/-- Column lookup `df[name]` as an `Option`; `none` models a `KeyError`. -/
def DataFrame.getCol (df : DataFrame) (name : String) : Option (List Int) :=
  Option.map Prod.snd (df.cols.find? (fun c => c.1 == name))

/-- Replace the column named `name` if present (pandas keeps the column
position), otherwise append it at the end. -/
def setColIn (cols : List (String × List Int)) (name : String)
    (vals : List Int) : List (String × List Int) :=
  if cols.any (fun c => c.1 == name) then
    cols.map (fun c => if c.1 == name then (name, vals) else c)
  else
    cols ++ [(name, vals)]

/-- Column assignment `df[name] = vals`; pandas raises `ValueError` when
the assigned array's length differs from the frame's length. -/
def DataFrame.setCol (df : DataFrame) (name : String) (vals : List Int) :
    Except String DataFrame :=
  if vals.length = df.index.length then
    Except.ok { index := df.index, cols := setColIn df.cols name vals }
  else
    Except.error "ValueError: Length of values does not match length of index"

/-- Keep the entries of `xs` whose aligned mask entry equals `1`
(the elementwise `is_anomaly == 1` selection). -/
def selectMask (xs : List Int) (mask : List Int) : List Int :=
  ((xs.zip mask).filter (fun p => p.2 == 1)).map Prod.fst

/-- Boolean-mask row selection `df[is_anomaly == 1]`; pandas raises
`IndexError` when the mask length differs from the frame length. -/
def DataFrame.filterMask (df : DataFrame) (mask : List Int) :
    Except String DataFrame :=
  if mask.length = df.index.length then
    Except.ok { index := selectMask df.index mask,
                cols := df.cols.map (fun c => (c.1, selectMask c.2 mask)) }
  else
    Except.error "IndexError: Boolean index has wrong length"

/-- `df.empty`: true when any axis has length zero. -/
def DataFrame.empty (df : DataFrame) : Bool :=
  df.index.isEmpty || df.cols.isEmpty

/-- All columns are aligned with the index. -/
def DataFrame.Wf (df : DataFrame) : Prop :=
  ∀ c ∈ df.cols, (Prod.snd c).length = df.index.length

namespace PlotsMatplotlib

/-- A matplotlib color argument: a named color, an RGB triple, or an
RGBA quadruple (components as exact rationals). -/
inductive MplColor where
  | named (s : String)
  | rgb (r g b : Rat)
  | rgba (r g b a : Rat)
deriving DecidableEq, Repr

/-- One element drawn on an `Axes`: a connected line (`ax.plot` /
`sns.lineplot`), a filled band (`ax.fill_between`), or unconnected
markers (`ax.scatter` / `sns.scatterplot`). -/
inductive Element where
  | line (x y : List Int) (name : String) (color : MplColor) (linewidth : Rat)
  | fillBetween (x lower upper : List Int) (color : MplColor) (alpha : Rat)
      (name : String)
  | scatter (x y : List Int) (name : String) (color : MplColor) (s : Nat)
      (zorder : Nat)
deriving DecidableEq, Repr

/-- The matplotlib `Axes` drawing surface. -/
structure Axes where
  objId : Nat
  elements : List Element
  title : Option String
  titleFontsize : Option Nat
  titleFontweight : Option String
  xlabel : Option String
  xlabelFontsize : Option Nat
  ylabel : Option String
  ylabelFontsize : Option Nat
  grid : Option (Bool × Rat)
  xtickRotation : Option Nat
deriving DecidableEq, Repr

/-- The matplotlib `Figure` container. -/
structure Figure where
  objId : Nat
  sizeInches : Option (Nat × Nat)
  tightLayout : Bool
deriving DecidableEq, Repr

/-- `add_line`: draw one labeled line with `linewidth=1.5`. -/
def add_line (ax : Axes) (x_values y_values : List Int) (name : String)
    (color : MplColor) : Axes :=
  { ax with elements :=
      ax.elements ++ [Element.line x_values y_values name color (3 / 2)] }

/-- `update_layout`: apply the fixed time-series styling to the axes and
figure (the Python function mutates both and returns the axes). -/
def update_layout (ax : Axes) (fig : Figure) : Axes × Figure :=
  ({ ax with
      title := some "Time Series"
      titleFontsize := some 14
      titleFontweight := some "bold"
      xlabel := some "Time"
      xlabelFontsize := some 12
      ylabel := some "Value"
      ylabelFontsize := some 12
      grid := some (true, 3 / 10)
      xtickRotation := some 45 },
   { fig with sizeInches := some (20, 8), tightLayout := true })

/-- `add_confidence_interval`: forecast line plus filled band.  The column
lookups happen in source order (`expected`, then `lower`, then `upper`);
a missing column propagates as the pandas `KeyError`.  On an error the
partially mutated surface is discarded, which no claim observes. -/
def add_confidence_interval (ax : Axes) (forecast : DataFrame) :
    Except String Axes :=
  match forecast.getCol "expected" with
  | none => Except.error "KeyError: expected"
  | some expected =>
    match forecast.getCol "lower" with
    | none => Except.error "KeyError: lower"
    | some lower =>
      match forecast.getCol "upper" with
      | none => Except.error "KeyError: upper"
      | some upper =>
        Except.ok { ax with elements := ax.elements ++
          [Element.line forecast.index expected "Forecast"
              (MplColor.rgba (31 / 255) (119 / 255) (180 / 255) (4 / 5)) 2,
           Element.fillBetween forecast.index lower upper
              (MplColor.rgb (31 / 255) (119 / 255) (180 / 255)) (1 / 5)
              "Confidence Interval"] }

/-- `add_points`: one scatter element with `s=50`, `zorder=5`. -/
def add_points (ax : Axes) (x_values y_values : List Int) (name : String)
    (color : MplColor) : Axes :=
  { ax with elements :=
      ax.elements ++ [Element.scatter x_values y_values name color 50 5] }

/-- `add_anomalies`: augment a copy of the series with
`expected`/`upper`/`lower` (column 0 of `expected_bounds` becomes
`upper`, column 1 becomes `lower`), filter the rows where the mask is 1,
draw them as points, then draw the band over the full table. -/
def add_anomalies (ax : Axes) (time_series : DataFrame)
    (is_anomaly : List Int) (expected_values : List Int)
    (expected_bounds : List (Int × Int)) : Except String Axes := do
  let ts1 ← time_series.setCol "expected" expected_values
  let ts2 ← ts1.setCol "upper" (expected_bounds.map Prod.fst)
  let ts3 ← ts2.setCol "lower" (expected_bounds.map Prod.snd)
  let anomaly_points ← ts3.filterMask is_anomaly
  match anomaly_points.getCol "value_0" with
  | none => Except.error "KeyError: value_0"
  | some v0 =>
    add_confidence_interval
      (add_points ax anomaly_points.index v0 "Anomalies"
        (MplColor.named "red"))
      ts3

/-- `add_seaborn_confidence_interval`: steelblue forecast line plus band. -/
def add_seaborn_confidence_interval (ax : Axes) (forecast : DataFrame) :
    Except String Axes :=
  match forecast.getCol "expected" with
  | none => Except.error "KeyError: expected"
  | some expected =>
    match forecast.getCol "lower" with
    | none => Except.error "KeyError: lower"
    | some lower =>
      match forecast.getCol "upper" with
      | none => Except.error "KeyError: upper"
      | some upper =>
        Except.ok { ax with elements := ax.elements ++
          [Element.line forecast.index expected "Forecast"
              (MplColor.named "steelblue") 2,
           Element.fillBetween forecast.index lower upper
              (MplColor.named "steelblue") (3 / 10) "Confidence Interval"] }

/-- `add_seaborn_anomalies`: like `add_anomalies`, but the scatter call is
skipped entirely when the filtered frame is empty. -/
def add_seaborn_anomalies (ax : Axes) (time_series : DataFrame)
    (is_anomaly : List Int) (expected_values : List Int)
    (expected_bounds : List (Int × Int)) : Except String Axes := do
  let ts1 ← time_series.setCol "expected" expected_values
  let ts2 ← ts1.setCol "upper" (expected_bounds.map Prod.fst)
  let ts3 ← ts2.setCol "lower" (expected_bounds.map Prod.snd)
  let anomaly_points ← ts3.filterMask is_anomaly
  let ax1 ←
    if anomaly_points.empty then
      Except.ok ax
    else
      match anomaly_points.getCol "value_0" with
      | none => Except.error "KeyError: value_0"
      | some v0 =>
        Except.ok { ax with elements := ax.elements ++
          [Element.scatter anomaly_points.index v0 "Anomalies"
            (MplColor.named "red") 100 5] }
  add_seaborn_confidence_interval ax1 ts3

/-- Number of markers an element contributes (coordinate pairs of a
scatter element). -/
def Element.markerCount : Element → Nat
  | Element.scatter x _ _ _ _ _ => x.length
  | _ => 0

/-- Is this element a scatter (marker) element? -/
def Element.isScatter : Element → Bool
  | Element.scatter _ _ _ _ _ _ => true
  | _ => false

/-- Is this element a connected line? -/
def Element.isLine : Element → Bool
  | Element.line _ _ _ _ _ => true
  | _ => false

/-- Is this element a filled band? -/
def Element.isFillBetween : Element → Bool
  | Element.fillBetween _ _ _ _ _ _ => true
  | _ => false

/-- Total number of markers drawn on the axes. -/
def Axes.markerCount (ax : Axes) : Nat :=
  (ax.elements.map Element.markerCount).sum

/-- Number of scatter elements on the axes. -/
def Axes.scatterCount (ax : Axes) : Nat :=
  ax.elements.countP Element.isScatter

/-- Number of line elements on the axes. -/
def Axes.lineCount (ax : Axes) : Nat :=
  ax.elements.countP Element.isLine

/-- Number of filled-band elements on the axes. -/
def Axes.fillBetweenCount (ax : Axes) : Nat :=
  ax.elements.countP Element.isFillBetween

end PlotsMatplotlib

namespace PlotsPlotly

/-- A plotly `go.Scatter` trace: only the keyword arguments the source
code passes are modelled, absent ones are `none`. -/
structure Trace where
  x : List Int
  y : List Int
  mode : String
  name : String
  lineColor : Option String
  lineWidth : Option Nat
  fill : Option String
  fillcolor : Option String
  showlegend : Option Bool
  markerColor : Option String
  markerSize : Option Nat
deriving DecidableEq, Repr

/-- One button of the x-axis range selector. -/
structure RangeButton where
  count : Option Nat
  label : Option String
  step : Option String
  stepmode : Option String
deriving DecidableEq, Repr

/-- The layout keys touched by `fig.update_layout`; `update_layout`
merges key by key, so nested `xaxis`/`yaxis` properties are flattened. -/
structure Layout where
  title : Option String
  xaxisTitle : Option String
  yaxisTitle : Option String
  height : Option Nat
  hovermode : Option String
  showlegend : Option Bool
  xaxisRangeselectorButtons : Option (List RangeButton)
  xaxisRangesliderVisible : Option Bool
  xaxisType : Option String
  yaxisFixedrange : Option Bool
deriving DecidableEq, Repr

/-- The plotly `go.Figure` drawing surface. -/
structure Figure where
  objId : Nat
  traces : List Trace
  layout : Layout
deriving DecidableEq, Repr

/-- `add_line`: one `mode="lines"` trace with the given name and color. -/
def add_line (fig : Figure) (x_values y_values : List Int) (name : String)
    (color : String) : Figure :=
  { fig with traces := fig.traces ++
      [{ x := x_values, y := y_values, mode := "lines", name := name,
         lineColor := some color, lineWidth := none, fill := none,
         fillcolor := none, showlegend := none, markerColor := none,
         markerSize := none }] }

/-- `update_layout`: set the fixed time-series layout keys. -/
def update_layout (fig : Figure) : Figure :=
  { fig with layout :=
      { title := some "Time Series"
        xaxisTitle := some "Time"
        yaxisTitle := some "Value"
        height := some 600
        hovermode := some "x unified"
        showlegend := some true
        xaxisRangeselectorButtons := some
          [⟨some 1, some "day", some "day", some "backward"⟩,
           ⟨some 7, some "week", some "day", some "backward"⟩,
           ⟨some 1, some "month", some "month", some "backward"⟩,
           ⟨none, none, some "all", none⟩]
        xaxisRangesliderVisible := some true
        xaxisType := some "date"
        yaxisFixedrange := some false } }

/-- `add_confidence_interval`: forecast line, a zero-width upper-bound
trace hidden from the legend, then a zero-width lower-bound trace filled
to the previous trace.  Column lookups happen in source order
(`expected`, `upper`, `lower`). -/
def add_confidence_interval (fig : Figure) (forecast : DataFrame) :
    Except String Figure :=
  match forecast.getCol "expected" with
  | none => Except.error "KeyError: expected"
  | some expected =>
    match forecast.getCol "upper" with
    | none => Except.error "KeyError: upper"
    | some upper =>
      match forecast.getCol "lower" with
      | none => Except.error "KeyError: lower"
      | some lower =>
        Except.ok { fig with traces := fig.traces ++
          [{ x := forecast.index, y := expected, mode := "lines",
             name := "Forecast",
             lineColor := some "rgba(31, 119, 180, 0.8)", lineWidth := none,
             fill := none, fillcolor := none, showlegend := none,
             markerColor := none, markerSize := none },
           { x := forecast.index, y := upper, mode := "lines",
             name := "Upper Bound", lineColor := none, lineWidth := some 0,
             fill := none, fillcolor := none, showlegend := some false,
             markerColor := none, markerSize := none },
           { x := forecast.index, y := lower, mode := "lines",
             name := "Lower Bound", lineColor := none, lineWidth := some 0,
             fill := some "tonexty",
             fillcolor := some "rgba(31, 119, 180, 0.2)",
             showlegend := some false,
             markerColor := none, markerSize := none }] }

/-- `add_points`: one `mode="markers"` trace with size-10 markers. -/
def add_points (fig : Figure) (x_values y_values : List Int) (name : String)
    (color : String) : Figure :=
  { fig with traces := fig.traces ++
      [{ x := x_values, y := y_values, mode := "markers", name := name,
         lineColor := none, lineWidth := none, fill := none,
         fillcolor := none, showlegend := none, markerColor := some color,
         markerSize := some 10 }] }

/-- `add_anomalies`: same augmentation and filtering as the matplotlib
composer, then points followed by the confidence interval. -/
def add_anomalies (fig : Figure) (time_series : DataFrame)
    (is_anomaly : List Int) (expected_values : List Int)
    (expected_bounds : List (Int × Int)) : Except String Figure := do
  let ts1 ← time_series.setCol "expected" expected_values
  let ts2 ← ts1.setCol "upper" (expected_bounds.map Prod.fst)
  let ts3 ← ts2.setCol "lower" (expected_bounds.map Prod.snd)
  let anomaly_points ← ts3.filterMask is_anomaly
  match anomaly_points.getCol "value_0" with
  | none => Except.error "KeyError: value_0"
  | some v0 =>
    add_confidence_interval
      (add_points fig anomaly_points.index v0 "Anomalies" "red")
      ts3

/-- Number of markers a trace contributes. -/
def Trace.markerCount (t : Trace) : Nat :=
  if t.mode == "markers" then t.x.length else 0

/-- Is this a marker trace? -/
def Trace.isMarkers (t : Trace) : Bool :=
  t.mode == "markers"

/-- A visible line trace: line mode, nonzero width, no fill directive
(the two zero-width band boundary traces are not visible lines). -/
def Trace.isVisibleLine (t : Trace) : Bool :=
  t.mode == "lines" && !(t.lineWidth == some 0) && t.fill == none

/-- A shaded band region: a trace filled to the previous trace. -/
def Trace.isBandRegion (t : Trace) : Bool :=
  t.fill == some "tonexty"

/-- Total number of markers on the figure. -/
def Figure.markerCount (fig : Figure) : Nat :=
  (fig.traces.map Trace.markerCount).sum

/-- Number of marker traces on the figure. -/
def Figure.markerTraceCount (fig : Figure) : Nat :=
  fig.traces.countP Trace.isMarkers

/-- Number of visible line traces on the figure. -/
def Figure.visibleLineCount (fig : Figure) : Nat :=
  fig.traces.countP Trace.isVisibleLine

/-- Number of shaded band regions on the figure. -/
def Figure.bandRegionCount (fig : Figure) : Nat :=
  fig.traces.countP Trace.isBandRegion

end PlotsPlotly

/-! ## Lemmas about the `DataFrame` operations -/

theorem find?_map_replace_self (n : String) (v : List Int) :
    ∀ cs : List (String × List Int), cs.any (fun c => c.1 == n) = true →
      (cs.map (fun c => if c.1 == n then (n, v) else c)).find?
        (fun c => c.1 == n) = some (n, v) := by
  intro cs
  induction cs with
  | nil => intro h; simp at h
  | cons c cs ih =>
    intro h
    rw [List.map_cons]
    by_cases hc : (c.1 == n) = true
    · rw [if_pos hc]
      simp [List.find?]
    · have hc' : (c.1 == n) = false := by simpa using hc
      rw [if_neg hc]
      simp only [List.find?, hc']
      simp only [List.any_cons, hc', Bool.false_or] at h
      exact ih h

theorem find?_map_replace_ne (n : String) (v : List Int) (m : String)
    (hnm : (n == m) = false) :
    ∀ cs : List (String × List Int),
      (cs.map (fun c => if c.1 == n then (n, v) else c)).find?
        (fun c => c.1 == m) = cs.find? (fun c => c.1 == m) := by
  intro cs
  induction cs with
  | nil => rfl
  | cons c cs ih =>
    rw [List.map_cons]
    by_cases hc : (c.1 == n) = true
    · have hc1 : c.1 = n := by simpa using hc
      have h2 : (c.1 == m) = false := by rw [hc1]; exact hnm
      rw [if_pos hc]
      simp only [List.find?, hnm, h2]
      exact ih
    · rw [if_neg hc]
      by_cases hm : (c.1 == m) = true
      · simp only [List.find?, hm]
      · have hm' : (c.1 == m) = false := by simpa using hm
        simp only [List.find?, hm']
        exact ih

theorem find?_setColIn_self (cols : List (String × List Int)) (n : String)
    (v : List Int) :
    (setColIn cols n v).find? (fun c => c.1 == n) = some (n, v) := by
  unfold setColIn
  split
  · rename_i h
    exact find?_map_replace_self n v cols h
  · rename_i h
    have hnone : cols.find? (fun c => c.1 == n) = none := by
      rw [List.find?_eq_none]
      intro x hx hpx
      exact h (List.any_eq_true.mpr ⟨x, hx, hpx⟩)
    rw [List.find?_append, hnone]
    simp

theorem find?_setColIn_ne (cols : List (String × List Int)) (n : String)
    (v : List Int) (m : String) (hmn : m ≠ n) :
    (setColIn cols n v).find? (fun c => c.1 == m) =
      cols.find? (fun c => c.1 == m) := by
  have hnm : (n == m) = false :=
    beq_eq_false_iff_ne.mpr (fun h => hmn h.symm)
  unfold setColIn
  split
  · exact find?_map_replace_ne n v m hnm cols
  · have h1 : [((n : String), v)].find? (fun c => c.1 == m) = none := by
      simp [hnm]
    rw [List.find?_append, h1]
    simp

theorem setColIn_ne_nil (cols : List (String × List Int)) (n : String)
    (v : List Int) : setColIn cols n v ≠ [] := by
  unfold setColIn
  split
  · rename_i h
    cases cols with
    | nil => simp at h
    | cons c cs => simp
  · simp

theorem selectMask_zero (xs : List Int) (n : Nat) :
    selectMask xs (List.replicate n 0) = [] := by
  induction xs generalizing n with
  | nil => rfl
  | cons x xs ih =>
    cases n with
    | zero => rfl
    | succ k =>
      simpa [selectMask, List.replicate, List.zip] using ih k

theorem selectMask_one (xs : List Int) :
    selectMask xs (List.replicate xs.length 1) = xs := by
  induction xs with
  | nil => rfl
  | cons x xs ih =>
    simpa [selectMask, List.replicate, List.zip] using ih

theorem exceptBind_ok {α β : Type} (a : α) (f : α → Except String β) :
    ((Except.ok a : Except String α) >>= f) = f a := rfl

theorem getCol_find? (df : DataFrame) (m : String) (v : List Int)
    (h : df.getCol m = some v) :
    df.cols.find? (fun c => c.1 == m) = some (m, v) := by
  unfold DataFrame.getCol at h
  cases hf : df.cols.find? (fun c => c.1 == m) with
  | none => rw [hf] at h; simp at h
  | some c =>
    rw [hf] at h
    obtain ⟨a, b⟩ := c
    have hc1 : a = m := by simpa using List.find?_some hf
    have hbv : b = v := by simpa using h
    rw [hc1, hbv]

theorem find?_map_selectMask (cols : List (String × List Int))
    (mask : List Int) (m : String) (v : List Int)
    (h : cols.find? (fun c => c.1 == m) = some (m, v)) :
    (cols.map (fun c => (c.1, selectMask c.2 mask))).find?
      (fun c => c.1 == m) = some (m, selectMask v mask) := by
  induction cols with
  | nil => simp at h
  | cons c cs ih =>
    by_cases hc : (c.1 == m) = true
    · simp only [List.find?, hc] at h
      obtain ⟨a, b⟩ := c
      simp only [Option.some_inj] at h
      rw [List.map_cons]
      simp only [List.find?, h, hc]
      simp_all
    · have hc' : (c.1 == m) = false := by simpa using hc
      simp only [List.find?, hc'] at h
      rw [List.map_cons]
      simp only [List.find?, hc']
      exact ih h

/-- `find?` facts about the column list after the three augmenting
assignments shared by all anomaly composers. -/
theorem augment_find? (cols : List (String × List Int))
    (ev col0 col1 : List Int) :
    (setColIn (setColIn (setColIn cols "expected" ev) "upper" col0)
        "lower" col1).find? (fun c => c.1 == "expected") =
      some ("expected", ev) ∧
    (setColIn (setColIn (setColIn cols "expected" ev) "upper" col0)
        "lower" col1).find? (fun c => c.1 == "upper") =
      some ("upper", col0) ∧
    (setColIn (setColIn (setColIn cols "expected" ev) "upper" col0)
        "lower" col1).find? (fun c => c.1 == "lower") =
      some ("lower", col1) := by
  refine ⟨?_, ?_, ?_⟩
  · rw [find?_setColIn_ne _ _ _ _ (by decide),
      find?_setColIn_ne _ _ _ _ (by decide), find?_setColIn_self]
  · rw [find?_setColIn_ne _ _ _ _ (by decide), find?_setColIn_self]
  · rw [find?_setColIn_self]

theorem augment_find?_value0 (cols : List (String × List Int))
    (ev col0 col1 v0 : List Int)
    (h : cols.find? (fun c => c.1 == "value_0") = some ("value_0", v0)) :
    (setColIn (setColIn (setColIn cols "expected" ev) "upper" col0)
        "lower" col1).find? (fun c => c.1 == "value_0") =
      some ("value_0", v0) := by
  rw [find?_setColIn_ne _ _ _ _ (by decide),
    find?_setColIn_ne _ _ _ _ (by decide),
    find?_setColIn_ne _ _ _ _ (by decide)]
  exact h

namespace PlotsMatplotlib

theorem add_confidence_interval_ok (ax : Axes) (f : DataFrame)
    (e lo up : List Int)
    (he : f.getCol "expected" = some e)
    (hl : f.getCol "lower" = some lo)
    (hu : f.getCol "upper" = some up) :
    add_confidence_interval ax f = Except.ok { ax with elements :=
      ax.elements ++
      [Element.line f.index e "Forecast"
          (MplColor.rgba (31 / 255) (119 / 255) (180 / 255) (4 / 5)) 2,
       Element.fillBetween f.index lo up
          (MplColor.rgb (31 / 255) (119 / 255) (180 / 255)) (1 / 5)
          "Confidence Interval"] } := by
  unfold add_confidence_interval
  simp only [he, hl, hu]

theorem add_seaborn_confidence_interval_ok (ax : Axes) (f : DataFrame)
    (e lo up : List Int)
    (he : f.getCol "expected" = some e)
    (hl : f.getCol "lower" = some lo)
    (hu : f.getCol "upper" = some up) :
    add_seaborn_confidence_interval ax f = Except.ok { ax with elements :=
      ax.elements ++
      [Element.line f.index e "Forecast" (MplColor.named "steelblue") 2,
       Element.fillBetween f.index lo up (MplColor.named "steelblue")
          (3 / 10) "Confidence Interval"] } := by
  unfold add_seaborn_confidence_interval
  simp only [he, hl, hu]

theorem add_anomalies_eq (ax : Axes) (ts : DataFrame)
    (mask ev : List Int) (bounds : List (Int × Int)) (v0 : List Int)
    (hm : mask.length = ts.index.length)
    (he : ev.length = ts.index.length)
    (hb : bounds.length = ts.index.length)
    (hv : ts.getCol "value_0" = some v0) :
    add_anomalies ax ts mask ev bounds = Except.ok { ax with elements :=
      ax.elements ++
      [Element.scatter (selectMask ts.index mask) (selectMask v0 mask)
          "Anomalies" (MplColor.named "red") 50 5,
       Element.line ts.index ev "Forecast"
          (MplColor.rgba (31 / 255) (119 / 255) (180 / 255) (4 / 5)) 2,
       Element.fillBetween ts.index (bounds.map Prod.snd)
          (bounds.map Prod.fst)
          (MplColor.rgb (31 / 255) (119 / 255) (180 / 255)) (1 / 5)
          "Confidence Interval"] } := by
  have h1 : ts.setCol "expected" ev =
      Except.ok ⟨ts.index, setColIn ts.cols "expected" ev⟩ := by
    simp [DataFrame.setCol, he]
  have h2 : (DataFrame.mk ts.index (setColIn ts.cols "expected" ev)).setCol
      "upper" (bounds.map Prod.fst) =
      Except.ok ⟨ts.index, setColIn (setColIn ts.cols "expected" ev)
        "upper" (bounds.map Prod.fst)⟩ := by
    simp [DataFrame.setCol, hb]
  have h3 : (DataFrame.mk ts.index (setColIn (setColIn ts.cols "expected" ev)
      "upper" (bounds.map Prod.fst))).setCol
      "lower" (bounds.map Prod.snd) =
      Except.ok ⟨ts.index, setColIn (setColIn (setColIn ts.cols "expected" ev)
        "upper" (bounds.map Prod.fst)) "lower" (bounds.map Prod.snd)⟩ := by
    simp [DataFrame.setCol, hb]
  have h4 : (DataFrame.mk ts.index (setColIn (setColIn (setColIn ts.cols
      "expected" ev) "upper" (bounds.map Prod.fst)) "lower"
      (bounds.map Prod.snd))).filterMask mask =
      Except.ok ⟨selectMask ts.index mask,
        (setColIn (setColIn (setColIn ts.cols "expected" ev) "upper"
          (bounds.map Prod.fst)) "lower" (bounds.map Prod.snd)).map
          (fun c => (c.1, selectMask c.2 mask))⟩ := by
    simp [DataFrame.filterMask, hm]
  have h5 : (DataFrame.mk (selectMask ts.index mask)
      ((setColIn (setColIn (setColIn ts.cols "expected" ev) "upper"
        (bounds.map Prod.fst)) "lower" (bounds.map Prod.snd)).map
        (fun c => (c.1, selectMask c.2 mask)))).getCol "value_0" =
      some (selectMask v0 mask) := by
    unfold DataFrame.getCol
    rw [find?_map_selectMask _ mask _ v0
      (augment_find?_value0 _ _ _ _ _ (getCol_find? ts "value_0" v0 hv))]
    rfl
  have h6 : (DataFrame.mk ts.index (setColIn (setColIn (setColIn ts.cols
      "expected" ev) "upper" (bounds.map Prod.fst)) "lower"
      (bounds.map Prod.snd))).getCol "expected" = some ev := by
    unfold DataFrame.getCol
    rw [(augment_find? ts.cols ev (bounds.map Prod.fst)
      (bounds.map Prod.snd)).1]
    rfl
  have h7 : (DataFrame.mk ts.index (setColIn (setColIn (setColIn ts.cols
      "expected" ev) "upper" (bounds.map Prod.fst)) "lower"
      (bounds.map Prod.snd))).getCol "lower" =
      some (bounds.map Prod.snd) := by
    unfold DataFrame.getCol
    rw [(augment_find? ts.cols ev (bounds.map Prod.fst)
      (bounds.map Prod.snd)).2.2]
    rfl
  have h8 : (DataFrame.mk ts.index (setColIn (setColIn (setColIn ts.cols
      "expected" ev) "upper" (bounds.map Prod.fst)) "lower"
      (bounds.map Prod.snd))).getCol "upper" =
      some (bounds.map Prod.fst) := by
    unfold DataFrame.getCol
    rw [(augment_find? ts.cols ev (bounds.map Prod.fst)
      (bounds.map Prod.snd)).2.1]
    rfl
  unfold add_anomalies
  simp only [h1, exceptBind_ok, h2, h3, h4, h5]
  rw [add_confidence_interval_ok _ _ _ _ _ h6 h7 h8]
  simp [add_points, List.append_assoc]

end PlotsMatplotlib

namespace PlotsMatplotlib

theorem add_seaborn_anomalies_eq (ax : Axes) (ts : DataFrame)
    (mask ev : List Int) (bounds : List (Int × Int)) (v0 : List Int)
    (hm : mask.length = ts.index.length)
    (he : ev.length = ts.index.length)
    (hb : bounds.length = ts.index.length)
    (hv : ts.getCol "value_0" = some v0) :
    add_seaborn_anomalies ax ts mask ev bounds =
      Except.ok { ax with elements :=
        ax.elements ++
        (if selectMask ts.index mask = [] then []
         else [Element.scatter (selectMask ts.index mask)
            (selectMask v0 mask) "Anomalies" (MplColor.named "red") 100 5]) ++
        [Element.line ts.index ev "Forecast" (MplColor.named "steelblue") 2,
         Element.fillBetween ts.index (bounds.map Prod.snd)
            (bounds.map Prod.fst) (MplColor.named "steelblue") (3 / 10)
            "Confidence Interval"] } := by
  have h1 : ts.setCol "expected" ev =
      Except.ok ⟨ts.index, setColIn ts.cols "expected" ev⟩ := by
    simp [DataFrame.setCol, he]
  have h2 : (DataFrame.mk ts.index (setColIn ts.cols "expected" ev)).setCol
      "upper" (bounds.map Prod.fst) =
      Except.ok ⟨ts.index, setColIn (setColIn ts.cols "expected" ev)
        "upper" (bounds.map Prod.fst)⟩ := by
    simp [DataFrame.setCol, hb]
  have h3 : (DataFrame.mk ts.index (setColIn (setColIn ts.cols "expected" ev)
      "upper" (bounds.map Prod.fst))).setCol
      "lower" (bounds.map Prod.snd) =
      Except.ok ⟨ts.index, setColIn (setColIn (setColIn ts.cols "expected" ev)
        "upper" (bounds.map Prod.fst)) "lower" (bounds.map Prod.snd)⟩ := by
    simp [DataFrame.setCol, hb]
  have h4 : (DataFrame.mk ts.index (setColIn (setColIn (setColIn ts.cols
      "expected" ev) "upper" (bounds.map Prod.fst)) "lower"
      (bounds.map Prod.snd))).filterMask mask =
      Except.ok ⟨selectMask ts.index mask,
        (setColIn (setColIn (setColIn ts.cols "expected" ev) "upper"
          (bounds.map Prod.fst)) "lower" (bounds.map Prod.snd)).map
          (fun c => (c.1, selectMask c.2 mask))⟩ := by
    simp [DataFrame.filterMask, hm]
  have h5 : (DataFrame.mk (selectMask ts.index mask)
      ((setColIn (setColIn (setColIn ts.cols "expected" ev) "upper"
        (bounds.map Prod.fst)) "lower" (bounds.map Prod.snd)).map
        (fun c => (c.1, selectMask c.2 mask)))).getCol "value_0" =
      some (selectMask v0 mask) := by
    unfold DataFrame.getCol
    rw [find?_map_selectMask _ mask _ v0
      (augment_find?_value0 _ _ _ _ _ (getCol_find? ts "value_0" v0 hv))]
    rfl
  have h6 : (DataFrame.mk ts.index (setColIn (setColIn (setColIn ts.cols
      "expected" ev) "upper" (bounds.map Prod.fst)) "lower"
      (bounds.map Prod.snd))).getCol "expected" = some ev := by
    unfold DataFrame.getCol
    rw [(augment_find? ts.cols ev (bounds.map Prod.fst)
      (bounds.map Prod.snd)).1]
    rfl
  have h7 : (DataFrame.mk ts.index (setColIn (setColIn (setColIn ts.cols
      "expected" ev) "upper" (bounds.map Prod.fst)) "lower"
      (bounds.map Prod.snd))).getCol "lower" =
      some (bounds.map Prod.snd) := by
    unfold DataFrame.getCol
    rw [(augment_find? ts.cols ev (bounds.map Prod.fst)
      (bounds.map Prod.snd)).2.2]
    rfl
  have h8 : (DataFrame.mk ts.index (setColIn (setColIn (setColIn ts.cols
      "expected" ev) "upper" (bounds.map Prod.fst)) "lower"
      (bounds.map Prod.snd))).getCol "upper" =
      some (bounds.map Prod.fst) := by
    unfold DataFrame.getCol
    rw [(augment_find? ts.cols ev (bounds.map Prod.fst)
      (bounds.map Prod.snd)).2.1]
    rfl
  have hne : setColIn (setColIn (setColIn ts.cols "expected" ev) "upper"
      (bounds.map Prod.fst)) "lower" (bounds.map Prod.snd) ≠ [] :=
    setColIn_ne_nil _ _ _
  unfold add_seaborn_anomalies
  simp only [h1, exceptBind_ok, h2, h3, h4]
  by_cases hemp : selectMask ts.index mask = []
  · have hE : (DataFrame.mk (selectMask ts.index mask)
        ((setColIn (setColIn (setColIn ts.cols "expected" ev) "upper"
          (bounds.map Prod.fst)) "lower" (bounds.map Prod.snd)).map
          (fun c => (c.1, selectMask c.2 mask)))).empty = true := by
      simp [DataFrame.empty, hemp]
    simp only [hE, if_true, exceptBind_ok]
    rw [add_seaborn_confidence_interval_ok _ _ _ _ _ h6 h7 h8]
    simp [hemp]
  · have hE : (DataFrame.mk (selectMask ts.index mask)
        ((setColIn (setColIn (setColIn ts.cols "expected" ev) "upper"
          (bounds.map Prod.fst)) "lower" (bounds.map Prod.snd)).map
          (fun c => (c.1, selectMask c.2 mask)))).empty = false := by
      simp [DataFrame.empty, hemp, List.isEmpty_iff, List.map_eq_nil_iff, hne]
    simp only [hE, Bool.false_eq_true, if_false, h5, exceptBind_ok]
    rw [add_seaborn_confidence_interval_ok _ _ _ _ _ h6 h7 h8]
    simp [hemp, List.append_assoc]

end PlotsMatplotlib

namespace PlotsPlotly

theorem add_confidence_interval_ok_plotly (fig : Figure) (f : DataFrame)
    (e lo up : List Int)
    (he : f.getCol "expected" = some e)
    (hl : f.getCol "lower" = some lo)
    (hu : f.getCol "upper" = some up) :
    add_confidence_interval fig f = Except.ok { fig with traces :=
      fig.traces ++
      [{ x := f.index, y := e, mode := "lines", name := "Forecast",
         lineColor := some "rgba(31, 119, 180, 0.8)", lineWidth := none,
         fill := none, fillcolor := none, showlegend := none,
         markerColor := none, markerSize := none },
       { x := f.index, y := up, mode := "lines", name := "Upper Bound",
         lineColor := none, lineWidth := some 0, fill := none,
         fillcolor := none, showlegend := some false, markerColor := none,
         markerSize := none },
       { x := f.index, y := lo, mode := "lines", name := "Lower Bound",
         lineColor := none, lineWidth := some 0, fill := some "tonexty",
         fillcolor := some "rgba(31, 119, 180, 0.2)",
         showlegend := some false, markerColor := none,
         markerSize := none }] } := by
  unfold add_confidence_interval
  simp only [he, hl, hu]

theorem add_anomalies_eq_plotly (fig : Figure) (ts : DataFrame)
    (mask ev : List Int) (bounds : List (Int × Int)) (v0 : List Int)
    (hm : mask.length = ts.index.length)
    (he : ev.length = ts.index.length)
    (hb : bounds.length = ts.index.length)
    (hv : ts.getCol "value_0" = some v0) :
    add_anomalies fig ts mask ev bounds = Except.ok { fig with traces :=
      fig.traces ++
      [{ x := selectMask ts.index mask, y := selectMask v0 mask,
         mode := "markers", name := "Anomalies", lineColor := none,
         lineWidth := none, fill := none, fillcolor := none,
         showlegend := none, markerColor := some "red",
         markerSize := some 10 },
       { x := ts.index, y := ev, mode := "lines", name := "Forecast",
         lineColor := some "rgba(31, 119, 180, 0.8)", lineWidth := none,
         fill := none, fillcolor := none, showlegend := none,
         markerColor := none, markerSize := none },
       { x := ts.index, y := bounds.map Prod.fst, mode := "lines",
         name := "Upper Bound", lineColor := none, lineWidth := some 0,
         fill := none, fillcolor := none, showlegend := some false,
         markerColor := none, markerSize := none },
       { x := ts.index, y := bounds.map Prod.snd, mode := "lines",
         name := "Lower Bound", lineColor := none, lineWidth := some 0,
         fill := some "tonexty",
         fillcolor := some "rgba(31, 119, 180, 0.2)",
         showlegend := some false, markerColor := none,
         markerSize := none }] } := by
  have h1 : ts.setCol "expected" ev =
      Except.ok ⟨ts.index, setColIn ts.cols "expected" ev⟩ := by
    simp [DataFrame.setCol, he]
  have h2 : (DataFrame.mk ts.index (setColIn ts.cols "expected" ev)).setCol
      "upper" (bounds.map Prod.fst) =
      Except.ok ⟨ts.index, setColIn (setColIn ts.cols "expected" ev)
        "upper" (bounds.map Prod.fst)⟩ := by
    simp [DataFrame.setCol, hb]
  have h3 : (DataFrame.mk ts.index (setColIn (setColIn ts.cols "expected" ev)
      "upper" (bounds.map Prod.fst))).setCol
      "lower" (bounds.map Prod.snd) =
      Except.ok ⟨ts.index, setColIn (setColIn (setColIn ts.cols "expected" ev)
        "upper" (bounds.map Prod.fst)) "lower" (bounds.map Prod.snd)⟩ := by
    simp [DataFrame.setCol, hb]
  have h4 : (DataFrame.mk ts.index (setColIn (setColIn (setColIn ts.cols
      "expected" ev) "upper" (bounds.map Prod.fst)) "lower"
      (bounds.map Prod.snd))).filterMask mask =
      Except.ok ⟨selectMask ts.index mask,
        (setColIn (setColIn (setColIn ts.cols "expected" ev) "upper"
          (bounds.map Prod.fst)) "lower" (bounds.map Prod.snd)).map
          (fun c => (c.1, selectMask c.2 mask))⟩ := by
    simp [DataFrame.filterMask, hm]
  have h5 : (DataFrame.mk (selectMask ts.index mask)
      ((setColIn (setColIn (setColIn ts.cols "expected" ev) "upper"
        (bounds.map Prod.fst)) "lower" (bounds.map Prod.snd)).map
        (fun c => (c.1, selectMask c.2 mask)))).getCol "value_0" =
      some (selectMask v0 mask) := by
    unfold DataFrame.getCol
    rw [find?_map_selectMask _ mask _ v0
      (augment_find?_value0 _ _ _ _ _ (getCol_find? ts "value_0" v0 hv))]
    rfl
  have h6 : (DataFrame.mk ts.index (setColIn (setColIn (setColIn ts.cols
      "expected" ev) "upper" (bounds.map Prod.fst)) "lower"
      (bounds.map Prod.snd))).getCol "expected" = some ev := by
    unfold DataFrame.getCol
    rw [(augment_find? ts.cols ev (bounds.map Prod.fst)
      (bounds.map Prod.snd)).1]
    rfl
  have h7 : (DataFrame.mk ts.index (setColIn (setColIn (setColIn ts.cols
      "expected" ev) "upper" (bounds.map Prod.fst)) "lower"
      (bounds.map Prod.snd))).getCol "lower" =
      some (bounds.map Prod.snd) := by
    unfold DataFrame.getCol
    rw [(augment_find? ts.cols ev (bounds.map Prod.fst)
      (bounds.map Prod.snd)).2.2]
    rfl
  have h8 : (DataFrame.mk ts.index (setColIn (setColIn (setColIn ts.cols
      "expected" ev) "upper" (bounds.map Prod.fst)) "lower"
      (bounds.map Prod.snd))).getCol "upper" =
      some (bounds.map Prod.fst) := by
    unfold DataFrame.getCol
    rw [(augment_find? ts.cols ev (bounds.map Prod.fst)
      (bounds.map Prod.snd)).2.1]
    rfl
  unfold add_anomalies
  simp only [h1, exceptBind_ok, h2, h3, h4, h5]
  rw [add_confidence_interval_ok_plotly _ _ _ _ _ h6 h7 h8]
  simp [add_points, List.append_assoc]

end PlotsPlotly

theorem exceptBind_err {α β : Type} (e : String)
    (f : α → Except String β) :
    ((Except.error e : Except String α) >>= f) = Except.error e := rfl

namespace PlotsMatplotlib

theorem add_confidence_interval_err_iff (ax : Axes) (f : DataFrame) :
    (∃ e, add_confidence_interval ax f = Except.error e) ↔
      (f.getCol "expected" = none ∨ f.getCol "lower" = none ∨
       f.getCol "upper" = none) := by
  unfold add_confidence_interval
  cases h1 : f.getCol "expected" with
  | none => simp [h1]
  | some e =>
    cases h2 : f.getCol "lower" with
    | none => simp [h2]
    | some lo =>
      cases h3 : f.getCol "upper" with
      | none => simp [h3]
      | some up => simp [h1, h2, h3]

theorem add_anomalies_mask_err (ax : Axes) (ts : DataFrame)
    (mask ev : List Int) (bounds : List (Int × Int))
    (he : ev.length = ts.index.length)
    (hb : bounds.length = ts.index.length)
    (hm : mask.length ≠ ts.index.length) :
    add_anomalies ax ts mask ev bounds =
      Except.error "IndexError: Boolean index has wrong length" := by
  have h1 : ts.setCol "expected" ev =
      Except.ok ⟨ts.index, setColIn ts.cols "expected" ev⟩ := by
    simp [DataFrame.setCol, he]
  have h2 : (DataFrame.mk ts.index (setColIn ts.cols "expected" ev)).setCol
      "upper" (bounds.map Prod.fst) =
      Except.ok ⟨ts.index, setColIn (setColIn ts.cols "expected" ev)
        "upper" (bounds.map Prod.fst)⟩ := by
    simp [DataFrame.setCol, hb]
  have h3 : (DataFrame.mk ts.index (setColIn (setColIn ts.cols "expected" ev)
      "upper" (bounds.map Prod.fst))).setCol
      "lower" (bounds.map Prod.snd) =
      Except.ok ⟨ts.index, setColIn (setColIn (setColIn ts.cols "expected" ev)
        "upper" (bounds.map Prod.fst)) "lower" (bounds.map Prod.snd)⟩ := by
    simp [DataFrame.setCol, hb]
  have h4 : (DataFrame.mk ts.index (setColIn (setColIn (setColIn ts.cols
      "expected" ev) "upper" (bounds.map Prod.fst)) "lower"
      (bounds.map Prod.snd))).filterMask mask =
      Except.error "IndexError: Boolean index has wrong length" := by
    simp [DataFrame.filterMask, hm]
  unfold add_anomalies
  simp only [h1, exceptBind_ok, h2, h3, h4, exceptBind_err]

theorem add_confidence_interval_objId (ax ax' : Axes) (f : DataFrame)
    (h : add_confidence_interval ax f = Except.ok ax') :
    ax'.objId = ax.objId := by
  unfold add_confidence_interval at h
  cases h1 : f.getCol "expected" <;> simp only [h1] at h
  · exact Except.noConfusion h
  cases h2 : f.getCol "lower" <;> simp only [h2] at h
  · exact Except.noConfusion h
  cases h3 : f.getCol "upper" <;> simp only [h3] at h
  · exact Except.noConfusion h
  · simp only [Except.ok.injEq] at h
    rw [← h]

theorem add_seaborn_confidence_interval_objId (ax ax' : Axes)
    (f : DataFrame)
    (h : add_seaborn_confidence_interval ax f = Except.ok ax') :
    ax'.objId = ax.objId := by
  unfold add_seaborn_confidence_interval at h
  cases h1 : f.getCol "expected" <;> simp only [h1] at h
  · exact Except.noConfusion h
  cases h2 : f.getCol "lower" <;> simp only [h2] at h
  · exact Except.noConfusion h
  cases h3 : f.getCol "upper" <;> simp only [h3] at h
  · exact Except.noConfusion h
  · simp only [Except.ok.injEq] at h
    rw [← h]

theorem add_anomalies_objId (ax ax' : Axes) (ts : DataFrame)
    (mask ev : List Int) (bounds : List (Int × Int))
    (h : add_anomalies ax ts mask ev bounds = Except.ok ax') :
    ax'.objId = ax.objId := by
  unfold add_anomalies at h
  cases h1 : ts.setCol "expected" ev <;>
    simp only [h1, exceptBind_ok, exceptBind_err] at h
  · exact Except.noConfusion h
  rename_i ts1
  cases h2 : ts1.setCol "upper" (bounds.map Prod.fst) <;>
    simp only [h2, exceptBind_ok, exceptBind_err] at h
  · exact Except.noConfusion h
  rename_i ts2
  cases h3 : ts2.setCol "lower" (bounds.map Prod.snd) <;>
    simp only [h3, exceptBind_ok, exceptBind_err] at h
  · exact Except.noConfusion h
  rename_i ts3
  cases h4 : ts3.filterMask mask <;>
    simp only [h4, exceptBind_ok, exceptBind_err] at h
  · exact Except.noConfusion h
  rename_i ap
  cases h5 : ap.getCol "value_0" <;> simp only [h5] at h
  · exact Except.noConfusion h
  have hfin := add_confidence_interval_objId _ _ _ h
  exact hfin

theorem add_seaborn_anomalies_objId (ax ax' : Axes) (ts : DataFrame)
    (mask ev : List Int) (bounds : List (Int × Int))
    (h : add_seaborn_anomalies ax ts mask ev bounds = Except.ok ax') :
    ax'.objId = ax.objId := by
  unfold add_seaborn_anomalies at h
  cases h1 : ts.setCol "expected" ev <;>
    simp only [h1, exceptBind_ok, exceptBind_err] at h
  · exact Except.noConfusion h
  rename_i ts1
  cases h2 : ts1.setCol "upper" (bounds.map Prod.fst) <;>
    simp only [h2, exceptBind_ok, exceptBind_err] at h
  · exact Except.noConfusion h
  rename_i ts2
  cases h3 : ts2.setCol "lower" (bounds.map Prod.snd) <;>
    simp only [h3, exceptBind_ok, exceptBind_err] at h
  · exact Except.noConfusion h
  rename_i ts3
  cases h4 : ts3.filterMask mask <;>
    simp only [h4, exceptBind_ok, exceptBind_err] at h
  · exact Except.noConfusion h
  rename_i ap
  cases hE : ap.empty <;> simp only [hE, if_true, Bool.false_eq_true,
    if_false, exceptBind_ok] at h
  · cases h5 : ap.getCol "value_0" <;> simp only [h5, exceptBind_ok] at h
    · exact Except.noConfusion h
    have hfin := add_seaborn_confidence_interval_objId _ _ _ h
    exact hfin
  · have hfin := add_seaborn_confidence_interval_objId _ _ _ h
    exact hfin

end PlotsMatplotlib

namespace PlotsPlotly

theorem add_confidence_interval_err_iff_plotly (fig : Figure) (f : DataFrame) :
    (∃ e, add_confidence_interval fig f = Except.error e) ↔
      (f.getCol "expected" = none ∨ f.getCol "lower" = none ∨
       f.getCol "upper" = none) := by
  unfold add_confidence_interval
  cases h1 : f.getCol "expected" with
  | none => simp [h1]
  | some e =>
    cases h2 : f.getCol "upper" with
    | none => simp [h2]
    | some up =>
      cases h3 : f.getCol "lower" with
      | none => simp [h3]
      | some lo => simp [h1, h2, h3]

theorem add_anomalies_mask_err_plotly (fig : Figure) (ts : DataFrame)
    (mask ev : List Int) (bounds : List (Int × Int))
    (he : ev.length = ts.index.length)
    (hb : bounds.length = ts.index.length)
    (hm : mask.length ≠ ts.index.length) :
    add_anomalies fig ts mask ev bounds =
      Except.error "IndexError: Boolean index has wrong length" := by
  have h1 : ts.setCol "expected" ev =
      Except.ok ⟨ts.index, setColIn ts.cols "expected" ev⟩ := by
    simp [DataFrame.setCol, he]
  have h2 : (DataFrame.mk ts.index (setColIn ts.cols "expected" ev)).setCol
      "upper" (bounds.map Prod.fst) =
      Except.ok ⟨ts.index, setColIn (setColIn ts.cols "expected" ev)
        "upper" (bounds.map Prod.fst)⟩ := by
    simp [DataFrame.setCol, hb]
  have h3 : (DataFrame.mk ts.index (setColIn (setColIn ts.cols "expected" ev)
      "upper" (bounds.map Prod.fst))).setCol
      "lower" (bounds.map Prod.snd) =
      Except.ok ⟨ts.index, setColIn (setColIn (setColIn ts.cols "expected" ev)
        "upper" (bounds.map Prod.fst)) "lower" (bounds.map Prod.snd)⟩ := by
    simp [DataFrame.setCol, hb]
  have h4 : (DataFrame.mk ts.index (setColIn (setColIn (setColIn ts.cols
      "expected" ev) "upper" (bounds.map Prod.fst)) "lower"
      (bounds.map Prod.snd))).filterMask mask =
      Except.error "IndexError: Boolean index has wrong length" := by
    simp [DataFrame.filterMask, hm]
  unfold add_anomalies
  simp only [h1, exceptBind_ok, h2, h3, h4, exceptBind_err]

theorem add_confidence_interval_objId_plotly (fig fig' : Figure) (f : DataFrame)
    (h : add_confidence_interval fig f = Except.ok fig') :
    fig'.objId = fig.objId := by
  unfold add_confidence_interval at h
  cases h1 : f.getCol "expected" <;> simp only [h1] at h
  · exact Except.noConfusion h
  cases h2 : f.getCol "upper" <;> simp only [h2] at h
  · exact Except.noConfusion h
  cases h3 : f.getCol "lower" <;> simp only [h3] at h
  · exact Except.noConfusion h
  · simp only [Except.ok.injEq] at h
    rw [← h]

theorem add_anomalies_objId_plotly (fig fig' : Figure) (ts : DataFrame)
    (mask ev : List Int) (bounds : List (Int × Int))
    (h : add_anomalies fig ts mask ev bounds = Except.ok fig') :
    fig'.objId = fig.objId := by
  unfold add_anomalies at h
  cases h1 : ts.setCol "expected" ev <;>
    simp only [h1, exceptBind_ok, exceptBind_err] at h
  · exact Except.noConfusion h
  rename_i ts1
  cases h2 : ts1.setCol "upper" (bounds.map Prod.fst) <;>
    simp only [h2, exceptBind_ok, exceptBind_err] at h
  · exact Except.noConfusion h
  rename_i ts2
  cases h3 : ts2.setCol "lower" (bounds.map Prod.snd) <;>
    simp only [h3, exceptBind_ok, exceptBind_err] at h
  · exact Except.noConfusion h
  rename_i ts3
  cases h4 : ts3.filterMask mask <;>
    simp only [h4, exceptBind_ok, exceptBind_err] at h
  · exact Except.noConfusion h
  rename_i ap
  cases h5 : ap.getCol "value_0" <;> simp only [h5] at h
  · exact Except.noConfusion h
  have hfin := add_confidence_interval_objId_plotly _ _ _ h
  exact hfin

end PlotsPlotly

/-! ## Concrete surfaces and tables used by the witnesses -/

/-- An empty matplotlib axes. -/
def axE : PlotsMatplotlib.Axes :=
  ⟨0, [], none, none, none, none, none, none, none, none, none⟩

/-- An empty matplotlib figure. -/
def mfigE : PlotsMatplotlib.Figure := ⟨0, none, false⟩

/-- An empty plotly layout. -/
def layoutE : PlotsPlotly.Layout :=
  ⟨none, none, none, none, none, none, none, none, none, none⟩

/-- An empty plotly figure. -/
def pfigE : PlotsPlotly.Figure := ⟨0, [], layoutE⟩

/-- A three-row time series with `value_0 = [5, 5, 5]`. -/
def ts3W : DataFrame := ⟨[0, 1, 2], [("value_0", [5, 5, 5])]⟩

/-! ## Claims -/

/-- C1: in every anomaly-overlay call with a two-column bound array, column 0
of the bound array becomes the upper bound of the rendered confidence band
and column 1 its lower bound, in all three composers (matplotlib, plotly,
seaborn); the band is the last element drawn. -/
theorem claim_C1 (ax : PlotsMatplotlib.Axes) (fig : PlotsPlotly.Figure)
    (ts : DataFrame) (mask ev v0 : List Int) (bounds : List (Int × Int))
    (hm : mask.length = ts.index.length)
    (he : ev.length = ts.index.length)
    (hb : bounds.length = ts.index.length)
    (hv : ts.getCol "value_0" = some v0) :
    (∃ ax', PlotsMatplotlib.add_anomalies ax ts mask ev bounds =
        Except.ok ax' ∧
      ax'.elements.getLast? = some (PlotsMatplotlib.Element.fillBetween
        ts.index (bounds.map Prod.snd) (bounds.map Prod.fst)
        (PlotsMatplotlib.MplColor.rgb (31 / 255) (119 / 255) (180 / 255))
        (1 / 5) "Confidence Interval")) ∧
    (∃ fig', PlotsPlotly.add_anomalies fig ts mask ev bounds =
        Except.ok fig' ∧
      fig'.traces.dropLast.getLast? = some
        { x := ts.index, y := bounds.map Prod.fst, mode := "lines",
          name := "Upper Bound", lineColor := none, lineWidth := some 0,
          fill := none, fillcolor := none, showlegend := some false,
          markerColor := none, markerSize := none } ∧
      fig'.traces.getLast? = some
        { x := ts.index, y := bounds.map Prod.snd, mode := "lines",
          name := "Lower Bound", lineColor := none, lineWidth := some 0,
          fill := some "tonexty",
          fillcolor := some "rgba(31, 119, 180, 0.2)",
          showlegend := some false, markerColor := none,
          markerSize := none }) ∧
    (∃ ax2, PlotsMatplotlib.add_seaborn_anomalies ax ts mask ev bounds =
        Except.ok ax2 ∧
      ax2.elements.getLast? = some (PlotsMatplotlib.Element.fillBetween
        ts.index (bounds.map Prod.snd) (bounds.map Prod.fst)
        (PlotsMatplotlib.MplColor.named "steelblue") (3 / 10)
        "Confidence Interval")) := by
  refine ⟨⟨_, PlotsMatplotlib.add_anomalies_eq ax ts mask ev bounds v0
      hm he hb hv, ?_⟩,
    ⟨_, PlotsPlotly.add_anomalies_eq_plotly fig ts mask ev bounds v0
      hm he hb hv, ?_, ?_⟩,
    ⟨_, PlotsMatplotlib.add_seaborn_anomalies_eq ax ts mask ev bounds v0
      hm he hb hv, ?_⟩⟩
  · simp
  · simp [List.dropLast_append_cons]
  · simp
  · simp

/-- C1 witness: with bound columns upper = [10,10,10] and lower = [1,1,1]
and expected = [5,5,5] over three timestamps, the rendered band has upper
value 10 and lower value 1 at every timestamp. -/
theorem claim_C1_witness :
    (∃ ax', PlotsMatplotlib.add_anomalies axE ts3W [0, 1, 0] [5, 5, 5]
        [(10, 1), (10, 1), (10, 1)] = Except.ok ax' ∧
      ax'.elements.getLast? = some (PlotsMatplotlib.Element.fillBetween
        [0, 1, 2] [1, 1, 1] [10, 10, 10]
        (PlotsMatplotlib.MplColor.rgb (31 / 255) (119 / 255) (180 / 255))
        (1 / 5) "Confidence Interval")) ∧
    (∃ fig', PlotsPlotly.add_anomalies pfigE ts3W [0, 1, 0] [5, 5, 5]
        [(10, 1), (10, 1), (10, 1)] = Except.ok fig' ∧
      fig'.traces.dropLast.getLast? = some
        { x := [0, 1, 2], y := [10, 10, 10], mode := "lines",
          name := "Upper Bound", lineColor := none, lineWidth := some 0,
          fill := none, fillcolor := none, showlegend := some false,
          markerColor := none, markerSize := none } ∧
      fig'.traces.getLast? = some
        { x := [0, 1, 2], y := [1, 1, 1], mode := "lines",
          name := "Lower Bound", lineColor := none, lineWidth := some 0,
          fill := some "tonexty",
          fillcolor := some "rgba(31, 119, 180, 0.2)",
          showlegend := some false, markerColor := none,
          markerSize := none }) ∧
    (∃ ax2, PlotsMatplotlib.add_seaborn_anomalies axE ts3W [0, 1, 0]
        [5, 5, 5] [(10, 1), (10, 1), (10, 1)] = Except.ok ax2 ∧
      ax2.elements.getLast? = some (PlotsMatplotlib.Element.fillBetween
        [0, 1, 2] [1, 1, 1] [10, 10, 10]
        (PlotsMatplotlib.MplColor.named "steelblue") (3 / 10)
        "Confidence Interval")) :=
  claim_C1 axE pfigE ts3W [0, 1, 0] [5, 5, 5] [5, 5, 5]
    [(10, 1), (10, 1), (10, 1)] rfl rfl rfl rfl

/-- C2: the overlay composer augments a working copy of the series with
`expected`/`upper`/`lower` columns, selects the rows where the mask equals
1, renders them as markers via the point renderer, and then renders the
full-length unfiltered augmented table as a band via the band renderer —
markers first, band second. -/
theorem claim_C2 (ax : PlotsMatplotlib.Axes) (fig : PlotsPlotly.Figure)
    (ts : DataFrame) (mask ev v0 : List Int) (bounds : List (Int × Int))
    (hm : mask.length = ts.index.length)
    (he : ev.length = ts.index.length)
    (hb : bounds.length = ts.index.length)
    (hv : ts.getCol "value_0" = some v0) :
    PlotsMatplotlib.add_anomalies ax ts mask ev bounds =
      PlotsMatplotlib.add_confidence_interval
        (PlotsMatplotlib.add_points ax (selectMask ts.index mask)
          (selectMask v0 mask) "Anomalies"
          (PlotsMatplotlib.MplColor.named "red"))
        ⟨ts.index, setColIn (setColIn (setColIn ts.cols "expected" ev)
          "upper" (bounds.map Prod.fst)) "lower" (bounds.map Prod.snd)⟩ ∧
    PlotsPlotly.add_anomalies fig ts mask ev bounds =
      PlotsPlotly.add_confidence_interval
        (PlotsPlotly.add_points fig (selectMask ts.index mask)
          (selectMask v0 mask) "Anomalies" "red")
        ⟨ts.index, setColIn (setColIn (setColIn ts.cols "expected" ev)
          "upper" (bounds.map Prod.fst)) "lower" (bounds.map Prod.snd)⟩ := by
  have h6 : (DataFrame.mk ts.index (setColIn (setColIn (setColIn ts.cols
      "expected" ev) "upper" (bounds.map Prod.fst)) "lower"
      (bounds.map Prod.snd))).getCol "expected" = some ev := by
    unfold DataFrame.getCol
    rw [(augment_find? ts.cols ev (bounds.map Prod.fst)
      (bounds.map Prod.snd)).1]
    rfl
  have h7 : (DataFrame.mk ts.index (setColIn (setColIn (setColIn ts.cols
      "expected" ev) "upper" (bounds.map Prod.fst)) "lower"
      (bounds.map Prod.snd))).getCol "lower" =
      some (bounds.map Prod.snd) := by
    unfold DataFrame.getCol
    rw [(augment_find? ts.cols ev (bounds.map Prod.fst)
      (bounds.map Prod.snd)).2.2]
    rfl
  have h8 : (DataFrame.mk ts.index (setColIn (setColIn (setColIn ts.cols
      "expected" ev) "upper" (bounds.map Prod.fst)) "lower"
      (bounds.map Prod.snd))).getCol "upper" =
      some (bounds.map Prod.fst) := by
    unfold DataFrame.getCol
    rw [(augment_find? ts.cols ev (bounds.map Prod.fst)
      (bounds.map Prod.snd)).2.1]
    rfl
  constructor
  · rw [PlotsMatplotlib.add_anomalies_eq ax ts mask ev bounds v0 hm he hb hv,
      PlotsMatplotlib.add_confidence_interval_ok _ _ _ _ _ h6 h7 h8]
    simp [PlotsMatplotlib.add_points, List.append_assoc]
  · rw [PlotsPlotly.add_anomalies_eq_plotly fig ts mask ev bounds v0 hm he hb hv,
      PlotsPlotly.add_confidence_interval_ok_plotly _ _ _ _ _ h6 h7 h8]
    simp [PlotsPlotly.add_points, List.append_assoc]

/-- C2 witness: the composer equals point renderer then band renderer on
a concrete three-row series with mask [0,1,0]. -/
theorem claim_C2_witness :
    PlotsMatplotlib.add_anomalies axE ts3W [0, 1, 0] [5, 5, 5]
        [(10, 1), (10, 1), (10, 1)] =
      PlotsMatplotlib.add_confidence_interval
        (PlotsMatplotlib.add_points axE [1] [5] "Anomalies"
          (PlotsMatplotlib.MplColor.named "red"))
        ⟨[0, 1, 2], [("value_0", [5, 5, 5]), ("expected", [5, 5, 5]),
          ("upper", [10, 10, 10]), ("lower", [1, 1, 1])]⟩ ∧
    PlotsPlotly.add_anomalies pfigE ts3W [0, 1, 0] [5, 5, 5]
        [(10, 1), (10, 1), (10, 1)] =
      PlotsPlotly.add_confidence_interval
        (PlotsPlotly.add_points pfigE [1] [5] "Anomalies" "red")
        ⟨[0, 1, 2], [("value_0", [5, 5, 5]), ("expected", [5, 5, 5]),
          ("upper", [10, 10, 10]), ("lower", [1, 1, 1])]⟩ :=
  claim_C2 axE pfigE ts3W [0, 1, 0] [5, 5, 5] [5, 5, 5]
    [(10, 1), (10, 1), (10, 1)] rfl rfl rfl rfl

/-- C3: with an all-zeros anomaly mask, every overlay composer adds zero
markers to the drawing surface and still adds a confidence band spanning
the full series index. -/
theorem claim_C3 (ax : PlotsMatplotlib.Axes) (fig : PlotsPlotly.Figure)
    (ts : DataFrame) (ev v0 : List Int) (bounds : List (Int × Int))
    (he : ev.length = ts.index.length)
    (hb : bounds.length = ts.index.length)
    (hv : ts.getCol "value_0" = some v0) :
    (∃ ax', PlotsMatplotlib.add_anomalies ax ts
        (List.replicate ts.index.length 0) ev bounds = Except.ok ax' ∧
      ax'.markerCount = ax.markerCount ∧
      ax'.elements.getLast? = some (PlotsMatplotlib.Element.fillBetween
        ts.index (bounds.map Prod.snd) (bounds.map Prod.fst)
        (PlotsMatplotlib.MplColor.rgb (31 / 255) (119 / 255) (180 / 255))
        (1 / 5) "Confidence Interval")) ∧
    (∃ fig', PlotsPlotly.add_anomalies fig ts
        (List.replicate ts.index.length 0) ev bounds = Except.ok fig' ∧
      fig'.markerCount = fig.markerCount ∧
      fig'.traces.getLast? = some
        { x := ts.index, y := bounds.map Prod.snd, mode := "lines",
          name := "Lower Bound", lineColor := none, lineWidth := some 0,
          fill := some "tonexty",
          fillcolor := some "rgba(31, 119, 180, 0.2)",
          showlegend := some false, markerColor := none,
          markerSize := none }) ∧
    (∃ ax2, PlotsMatplotlib.add_seaborn_anomalies ax ts
        (List.replicate ts.index.length 0) ev bounds = Except.ok ax2 ∧
      ax2.markerCount = ax.markerCount ∧
      ax2.elements.getLast? = some (PlotsMatplotlib.Element.fillBetween
        ts.index (bounds.map Prod.snd) (bounds.map Prod.fst)
        (PlotsMatplotlib.MplColor.named "steelblue") (3 / 10)
        "Confidence Interval")) := by
  have hm : (List.replicate ts.index.length (0 : Int)).length =
      ts.index.length := by simp
  refine ⟨⟨_, PlotsMatplotlib.add_anomalies_eq ax ts _ ev bounds v0
      hm he hb hv, ?_, ?_⟩,
    ⟨_, PlotsPlotly.add_anomalies_eq_plotly fig ts _ ev bounds v0
      hm he hb hv, ?_, ?_⟩,
    ⟨_, PlotsMatplotlib.add_seaborn_anomalies_eq ax ts _ ev bounds v0
      hm he hb hv, ?_, ?_⟩⟩
  · simp [PlotsMatplotlib.Axes.markerCount, PlotsMatplotlib.Element.markerCount,
      selectMask_zero]
  · simp
  · simp [PlotsPlotly.Figure.markerCount, PlotsPlotly.Trace.markerCount,
      selectMask_zero]
  · simp
  · simp [PlotsMatplotlib.Axes.markerCount, PlotsMatplotlib.Element.markerCount,
      selectMask_zero]
  · simp [selectMask_zero]

/-- C3 witness: all-zeros mask over the concrete three-row series. -/
theorem claim_C3_witness :
    (∃ ax', PlotsMatplotlib.add_anomalies axE ts3W [0, 0, 0] [5, 5, 5]
        [(10, 1), (10, 1), (10, 1)] = Except.ok ax' ∧
      ax'.markerCount = axE.markerCount ∧
      ax'.elements.getLast? = some (PlotsMatplotlib.Element.fillBetween
        [0, 1, 2] [1, 1, 1] [10, 10, 10]
        (PlotsMatplotlib.MplColor.rgb (31 / 255) (119 / 255) (180 / 255))
        (1 / 5) "Confidence Interval")) ∧
    (∃ fig', PlotsPlotly.add_anomalies pfigE ts3W [0, 0, 0] [5, 5, 5]
        [(10, 1), (10, 1), (10, 1)] = Except.ok fig' ∧
      fig'.markerCount = pfigE.markerCount ∧
      fig'.traces.getLast? = some
        { x := [0, 1, 2], y := [1, 1, 1], mode := "lines",
          name := "Lower Bound", lineColor := none, lineWidth := some 0,
          fill := some "tonexty",
          fillcolor := some "rgba(31, 119, 180, 0.2)",
          showlegend := some false, markerColor := none,
          markerSize := none }) ∧
    (∃ ax2, PlotsMatplotlib.add_seaborn_anomalies axE ts3W [0, 0, 0]
        [5, 5, 5] [(10, 1), (10, 1), (10, 1)] = Except.ok ax2 ∧
      ax2.markerCount = axE.markerCount ∧
      ax2.elements.getLast? = some (PlotsMatplotlib.Element.fillBetween
        [0, 1, 2] [1, 1, 1] [10, 10, 10]
        (PlotsMatplotlib.MplColor.named "steelblue") (3 / 10)
        "Confidence Interval")) :=
  claim_C3 axE pfigE ts3W [5, 5, 5] [5, 5, 5] [(10, 1), (10, 1), (10, 1)]
    rfl rfl rfl

/-- C4: with an all-ones anomaly mask over a series of length N, the
matplotlib and plotly overlay composers add exactly N markers, one per
(timestamp, value_0) pair of the series. -/
theorem claim_C4 (ax : PlotsMatplotlib.Axes) (fig : PlotsPlotly.Figure)
    (ts : DataFrame) (ev v0 : List Int) (bounds : List (Int × Int))
    (he : ev.length = ts.index.length)
    (hb : bounds.length = ts.index.length)
    (hv : ts.getCol "value_0" = some v0)
    (hvlen : v0.length = ts.index.length) :
    (∃ ax', PlotsMatplotlib.add_anomalies ax ts
        (List.replicate ts.index.length 1) ev bounds = Except.ok ax' ∧
      ax'.markerCount = ax.markerCount + ts.index.length ∧
      PlotsMatplotlib.Element.scatter ts.index v0 "Anomalies"
        (PlotsMatplotlib.MplColor.named "red") 50 5 ∈ ax'.elements) ∧
    (∃ fig', PlotsPlotly.add_anomalies fig ts
        (List.replicate ts.index.length 1) ev bounds = Except.ok fig' ∧
      fig'.markerCount = fig.markerCount + ts.index.length ∧
      ({ x := ts.index, y := v0, mode := "markers", name := "Anomalies",
         lineColor := none, lineWidth := none, fill := none,
         fillcolor := none, showlegend := none, markerColor := some "red",
         markerSize := some 10 } : PlotsPlotly.Trace) ∈ fig'.traces) := by
  have hm : (List.replicate ts.index.length (1 : Int)).length =
      ts.index.length := by simp
  have hsi : selectMask ts.index (List.replicate ts.index.length 1) =
      ts.index := selectMask_one ts.index
  have hsv : selectMask v0 (List.replicate ts.index.length 1) = v0 := by
    rw [← hvlen]
    exact selectMask_one v0
  refine ⟨⟨_, PlotsMatplotlib.add_anomalies_eq ax ts _ ev bounds v0
      hm he hb hv, ?_, ?_⟩,
    ⟨_, PlotsPlotly.add_anomalies_eq_plotly fig ts _ ev bounds v0
      hm he hb hv, ?_, ?_⟩⟩
  · simp [PlotsMatplotlib.Axes.markerCount, PlotsMatplotlib.Element.markerCount,
      hsi]
  · simp [hsi, hsv]
  · simp [PlotsPlotly.Figure.markerCount, PlotsPlotly.Trace.markerCount, hsi]
  · simp [hsi, hsv]

/-- C4 witness: all-ones mask over the concrete three-row series yields
three markers. -/
theorem claim_C4_witness :
    (∃ ax', PlotsMatplotlib.add_anomalies axE ts3W [1, 1, 1] [5, 5, 5]
        [(10, 1), (10, 1), (10, 1)] = Except.ok ax' ∧
      ax'.markerCount = axE.markerCount + 3 ∧
      PlotsMatplotlib.Element.scatter [0, 1, 2] [5, 5, 5] "Anomalies"
        (PlotsMatplotlib.MplColor.named "red") 50 5 ∈ ax'.elements) ∧
    (∃ fig', PlotsPlotly.add_anomalies pfigE ts3W [1, 1, 1] [5, 5, 5]
        [(10, 1), (10, 1), (10, 1)] = Except.ok fig' ∧
      fig'.markerCount = pfigE.markerCount + 3 ∧
      ({ x := [0, 1, 2], y := [5, 5, 5], mode := "markers",
         name := "Anomalies", lineColor := none, lineWidth := none,
         fill := none, fillcolor := none, showlegend := none,
         markerColor := some "red",
         markerSize := some 10 } : PlotsPlotly.Trace) ∈ fig'.traces) :=
  claim_C4 axE pfigE ts3W [5, 5, 5] [5, 5, 5] [(10, 1), (10, 1), (10, 1)]
    rfl rfl rfl rfl

/-- C5: on a forecast table with `expected`/`lower`/`upper` columns of
equal length, the band renderer adds exactly one (visible) line element
and exactly one shaded band region in each backend. -/
theorem claim_C5 (ax : PlotsMatplotlib.Axes) (fig : PlotsPlotly.Figure)
    (f : DataFrame) (e lo up : List Int)
    (he : f.getCol "expected" = some e)
    (hl : f.getCol "lower" = some lo)
    (hu : f.getCol "upper" = some up)
    (_hel : e.length = lo.length)
    (_hlu : lo.length = up.length) :
    (∃ ax', PlotsMatplotlib.add_confidence_interval ax f = Except.ok ax' ∧
      ax'.lineCount = ax.lineCount + 1 ∧
      ax'.fillBetweenCount = ax.fillBetweenCount + 1) ∧
    (∃ fig', PlotsPlotly.add_confidence_interval fig f = Except.ok fig' ∧
      fig'.visibleLineCount = fig.visibleLineCount + 1 ∧
      fig'.bandRegionCount = fig.bandRegionCount + 1) := by
  refine ⟨⟨_, PlotsMatplotlib.add_confidence_interval_ok ax f e lo up
      he hl hu, ?_, ?_⟩,
    ⟨_, PlotsPlotly.add_confidence_interval_ok_plotly fig f e lo up
      he hl hu, ?_, ?_⟩⟩
  · simp [PlotsMatplotlib.Axes.lineCount, PlotsMatplotlib.Element.isLine,
      List.countP_append, List.countP_cons]
  · simp [PlotsMatplotlib.Axes.fillBetweenCount,
      PlotsMatplotlib.Element.isFillBetween, List.countP_append,
      List.countP_cons]
  · simp [PlotsPlotly.Figure.visibleLineCount,
      PlotsPlotly.Trace.isVisibleLine, List.countP_append, List.countP_cons]
  · simp [PlotsPlotly.Figure.bandRegionCount,
      PlotsPlotly.Trace.isBandRegion, List.countP_append, List.countP_cons]

/-- C5 witness: a concrete three-row forecast table. -/
theorem claim_C5_witness :
    (∃ ax', PlotsMatplotlib.add_confidence_interval axE
        ⟨[0, 1, 2], [("expected", [5, 5, 5]), ("lower", [1, 1, 1]),
          ("upper", [10, 10, 10])]⟩ = Except.ok ax' ∧
      ax'.lineCount = axE.lineCount + 1 ∧
      ax'.fillBetweenCount = axE.fillBetweenCount + 1) ∧
    (∃ fig', PlotsPlotly.add_confidence_interval pfigE
        ⟨[0, 1, 2], [("expected", [5, 5, 5]), ("lower", [1, 1, 1]),
          ("upper", [10, 10, 10])]⟩ = Except.ok fig' ∧
      fig'.visibleLineCount = pfigE.visibleLineCount + 1 ∧
      fig'.bandRegionCount = pfigE.bandRegionCount + 1) :=
  claim_C5 axE pfigE
    ⟨[0, 1, 2], [("expected", [5, 5, 5]), ("lower", [1, 1, 1]),
      ("upper", [10, 10, 10])]⟩
    [5, 5, 5] [1, 1, 1] [10, 10, 10] rfl rfl rfl rfl rfl

/-- C6: the band renderer fails (with the propagated missing-column
lookup error) exactly when one of the `expected`/`lower`/`upper` columns
is missing — it performs no validation beyond this pass-through. -/
theorem claim_C6 (ax : PlotsMatplotlib.Axes) (fig : PlotsPlotly.Figure)
    (f : DataFrame) :
    ((∃ e, PlotsMatplotlib.add_confidence_interval ax f =
        Except.error e) ↔
      (f.getCol "expected" = none ∨ f.getCol "lower" = none ∨
       f.getCol "upper" = none)) ∧
    ((∃ e, PlotsPlotly.add_confidence_interval fig f =
        Except.error e) ↔
      (f.getCol "expected" = none ∨ f.getCol "lower" = none ∨
       f.getCol "upper" = none)) :=
  ⟨PlotsMatplotlib.add_confidence_interval_err_iff ax f,
   PlotsPlotly.add_confidence_interval_err_iff_plotly fig f⟩

/-- C7: the layout applier is idempotent — applying it twice leaves
exactly the same titles, labels and styling as applying it once, in both
backends. -/
theorem claim_C7 (ax : PlotsMatplotlib.Axes) (figM : PlotsMatplotlib.Figure)
    (fig : PlotsPlotly.Figure) :
    PlotsMatplotlib.update_layout (PlotsMatplotlib.update_layout ax figM).1
        (PlotsMatplotlib.update_layout ax figM).2 =
      PlotsMatplotlib.update_layout ax figM ∧
    PlotsPlotly.update_layout (PlotsPlotly.update_layout fig) =
      PlotsPlotly.update_layout fig :=
  ⟨rfl, rfl⟩

/-- C8: an anomaly mask whose length differs from the series length makes
the overlay composer fail with the charting/data-library alignment error
(the boolean-mask row selection), with no bounds-check of its own. -/
theorem claim_C8 (ax : PlotsMatplotlib.Axes) (fig : PlotsPlotly.Figure)
    (ts : DataFrame) (mask ev : List Int) (bounds : List (Int × Int))
    (he : ev.length = ts.index.length)
    (hb : bounds.length = ts.index.length)
    (hm : mask.length ≠ ts.index.length) :
    PlotsMatplotlib.add_anomalies ax ts mask ev bounds =
      Except.error "IndexError: Boolean index has wrong length" ∧
    PlotsPlotly.add_anomalies fig ts mask ev bounds =
      Except.error "IndexError: Boolean index has wrong length" :=
  ⟨PlotsMatplotlib.add_anomalies_mask_err ax ts mask ev bounds he hb hm,
   PlotsPlotly.add_anomalies_mask_err_plotly fig ts mask ev bounds he hb hm⟩

/-- C8 witness: a length-2 mask against the three-row series. -/
theorem claim_C8_witness :
    PlotsMatplotlib.add_anomalies axE ts3W [1, 0] [5, 5, 5]
        [(10, 1), (10, 1), (10, 1)] =
      Except.error "IndexError: Boolean index has wrong length" ∧
    PlotsPlotly.add_anomalies pfigE ts3W [1, 0] [5, 5, 5]
        [(10, 1), (10, 1), (10, 1)] =
      Except.error "IndexError: Boolean index has wrong length" :=
  claim_C8 axE pfigE ts3W [1, 0] [5, 5, 5] [(10, 1), (10, 1), (10, 1)]
    rfl rfl (by decide)

/-- A three-row forecast table with all three band columns. -/
def fcW : DataFrame :=
  ⟨[0, 1, 2], [("expected", [5, 5, 5]), ("lower", [1, 1, 1]),
    ("upper", [10, 10, 10])]⟩

/-- Result of the matplotlib band renderer on `axE` and `fcW`. -/
def ax1W : PlotsMatplotlib.Axes :=
  ⟨0, [PlotsMatplotlib.Element.line [0, 1, 2] [5, 5, 5] "Forecast"
      (PlotsMatplotlib.MplColor.rgba (31 / 255) (119 / 255) (180 / 255)
        (4 / 5)) 2,
    PlotsMatplotlib.Element.fillBetween [0, 1, 2] [1, 1, 1] [10, 10, 10]
      (PlotsMatplotlib.MplColor.rgb (31 / 255) (119 / 255) (180 / 255))
      (1 / 5) "Confidence Interval"],
   none, none, none, none, none, none, none, none, none⟩

/-- Result of the matplotlib overlay composer on `axE`, `ts3W`, an
all-ones mask, expected `[5,5,5]` and bounds `[(10,1),(10,1),(10,1)]`. -/
def ax2W : PlotsMatplotlib.Axes :=
  ⟨0, [PlotsMatplotlib.Element.scatter [0, 1, 2] [5, 5, 5] "Anomalies"
      (PlotsMatplotlib.MplColor.named "red") 50 5,
    PlotsMatplotlib.Element.line [0, 1, 2] [5, 5, 5] "Forecast"
      (PlotsMatplotlib.MplColor.rgba (31 / 255) (119 / 255) (180 / 255)
        (4 / 5)) 2,
    PlotsMatplotlib.Element.fillBetween [0, 1, 2] [1, 1, 1] [10, 10, 10]
      (PlotsMatplotlib.MplColor.rgb (31 / 255) (119 / 255) (180 / 255))
      (1 / 5) "Confidence Interval"],
   none, none, none, none, none, none, none, none, none⟩

/-- Result of the seaborn band renderer on `axE` and `fcW`. -/
def ax3W : PlotsMatplotlib.Axes :=
  ⟨0, [PlotsMatplotlib.Element.line [0, 1, 2] [5, 5, 5] "Forecast"
      (PlotsMatplotlib.MplColor.named "steelblue") 2,
    PlotsMatplotlib.Element.fillBetween [0, 1, 2] [1, 1, 1] [10, 10, 10]
      (PlotsMatplotlib.MplColor.named "steelblue") (3 / 10)
      "Confidence Interval"],
   none, none, none, none, none, none, none, none, none⟩

/-- Result of the seaborn overlay composer on `axE`, `ts3W`, an all-ones
mask, expected `[5,5,5]` and bounds `[(10,1),(10,1),(10,1)]`. -/
def ax4W : PlotsMatplotlib.Axes :=
  ⟨0, [PlotsMatplotlib.Element.scatter [0, 1, 2] [5, 5, 5] "Anomalies"
      (PlotsMatplotlib.MplColor.named "red") 100 5,
    PlotsMatplotlib.Element.line [0, 1, 2] [5, 5, 5] "Forecast"
      (PlotsMatplotlib.MplColor.named "steelblue") 2,
    PlotsMatplotlib.Element.fillBetween [0, 1, 2] [1, 1, 1] [10, 10, 10]
      (PlotsMatplotlib.MplColor.named "steelblue") (3 / 10)
      "Confidence Interval"],
   none, none, none, none, none, none, none, none, none⟩

/-- The plotly forecast-line trace over the three concrete rows. -/
def trForecastW : PlotsPlotly.Trace :=
  { x := [0, 1, 2], y := [5, 5, 5], mode := "lines", name := "Forecast",
    lineColor := some "rgba(31, 119, 180, 0.8)", lineWidth := none,
    fill := none, fillcolor := none, showlegend := none,
    markerColor := none, markerSize := none }

/-- The plotly upper-bound trace over the three concrete rows. -/
def trUpperW : PlotsPlotly.Trace :=
  { x := [0, 1, 2], y := [10, 10, 10], mode := "lines",
    name := "Upper Bound", lineColor := none, lineWidth := some 0,
    fill := none, fillcolor := none, showlegend := some false,
    markerColor := none, markerSize := none }

/-- The plotly lower-bound trace over the three concrete rows. -/
def trLowerW : PlotsPlotly.Trace :=
  { x := [0, 1, 2], y := [1, 1, 1], mode := "lines",
    name := "Lower Bound", lineColor := none, lineWidth := some 0,
    fill := some "tonexty", fillcolor := some "rgba(31, 119, 180, 0.2)",
    showlegend := some false, markerColor := none, markerSize := none }

/-- The plotly anomaly-marker trace over the three concrete rows. -/
def trMarkerW : PlotsPlotly.Trace :=
  { x := [0, 1, 2], y := [5, 5, 5], mode := "markers",
    name := "Anomalies", lineColor := none, lineWidth := none,
    fill := none, fillcolor := none, showlegend := none,
    markerColor := some "red", markerSize := some 10 }

/-- Result of the plotly band renderer on `pfigE` and `fcW`. -/
def figP1W : PlotsPlotly.Figure :=
  { objId := 0, layout := layoutE,
    traces := [trForecastW, trUpperW, trLowerW] }

/-- Result of the plotly overlay composer on `pfigE`, `ts3W`, an all-ones
mask, expected `[5,5,5]` and bounds `[(10,1),(10,1),(10,1)]`. -/
def figP2W : PlotsPlotly.Figure :=
  { objId := 0, layout := layoutE,
    traces := [trMarkerW, trForecastW, trUpperW, trLowerW] }

/-- C9: every drawing function that receives a drawing surface (line
renderer, layout applier, band renderer, point renderer, overlay
composer, in both backends and the seaborn variants) returns the very
same surface object (same object identity) that it received, whenever it
does not raise. -/
theorem claim_C9 (ax ax1 ax2 ax3 ax4 : PlotsMatplotlib.Axes)
    (figM : PlotsMatplotlib.Figure)
    (fig figP1 figP2 : PlotsPlotly.Figure)
    (x y : List Int) (name : String) (cM : PlotsMatplotlib.MplColor)
    (cP : String) (f ts : DataFrame) (mask ev : List Int)
    (bounds : List (Int × Int))
    (h1 : PlotsMatplotlib.add_confidence_interval ax f = Except.ok ax1)
    (h2 : PlotsMatplotlib.add_anomalies ax ts mask ev bounds =
      Except.ok ax2)
    (h3 : PlotsMatplotlib.add_seaborn_confidence_interval ax f =
      Except.ok ax3)
    (h4 : PlotsMatplotlib.add_seaborn_anomalies ax ts mask ev bounds =
      Except.ok ax4)
    (h5 : PlotsPlotly.add_confidence_interval fig f = Except.ok figP1)
    (h6 : PlotsPlotly.add_anomalies fig ts mask ev bounds =
      Except.ok figP2) :
    (PlotsMatplotlib.add_line ax x y name cM).objId = ax.objId ∧
    (PlotsMatplotlib.update_layout ax figM).1.objId = ax.objId ∧
    (PlotsMatplotlib.update_layout ax figM).2.objId = figM.objId ∧
    (PlotsMatplotlib.add_points ax x y name cM).objId = ax.objId ∧
    ax1.objId = ax.objId ∧ ax2.objId = ax.objId ∧
    ax3.objId = ax.objId ∧ ax4.objId = ax.objId ∧
    (PlotsPlotly.add_line fig x y name cP).objId = fig.objId ∧
    (PlotsPlotly.update_layout fig).objId = fig.objId ∧
    (PlotsPlotly.add_points fig x y name cP).objId = fig.objId ∧
    figP1.objId = fig.objId ∧ figP2.objId = fig.objId :=
  ⟨rfl, rfl, rfl, rfl,
   PlotsMatplotlib.add_confidence_interval_objId _ _ _ h1,
   PlotsMatplotlib.add_anomalies_objId _ _ _ _ _ _ h2,
   PlotsMatplotlib.add_seaborn_confidence_interval_objId _ _ _ h3,
   PlotsMatplotlib.add_seaborn_anomalies_objId _ _ _ _ _ _ h4,
   rfl, rfl, rfl,
   PlotsPlotly.add_confidence_interval_objId_plotly _ _ _ h5,
   PlotsPlotly.add_anomalies_objId_plotly _ _ _ _ _ _ h6⟩

/-- C9 witness: all twelve drawing calls on the concrete surfaces return
surfaces with the identity of the surface passed in. -/
theorem claim_C9_witness :
    (PlotsMatplotlib.add_line axE [0, 1, 2] [5, 5, 5] "Series"
      (PlotsMatplotlib.MplColor.named "blue")).objId = axE.objId ∧
    (PlotsMatplotlib.update_layout axE mfigE).1.objId = axE.objId ∧
    (PlotsMatplotlib.update_layout axE mfigE).2.objId = mfigE.objId ∧
    (PlotsMatplotlib.add_points axE [0, 1, 2] [5, 5, 5] "Series"
      (PlotsMatplotlib.MplColor.named "blue")).objId = axE.objId ∧
    ax1W.objId = axE.objId ∧ ax2W.objId = axE.objId ∧
    ax3W.objId = axE.objId ∧ ax4W.objId = axE.objId ∧
    (PlotsPlotly.add_line pfigE [0, 1, 2] [5, 5, 5] "Series"
      "blue").objId = pfigE.objId ∧
    (PlotsPlotly.update_layout pfigE).objId = pfigE.objId ∧
    (PlotsPlotly.add_points pfigE [0, 1, 2] [5, 5, 5] "Series"
      "blue").objId = pfigE.objId ∧
    figP1W.objId = pfigE.objId ∧ figP2W.objId = pfigE.objId :=
  claim_C9 axE ax1W ax2W ax3W ax4W mfigE pfigE figP1W figP2W
    [0, 1, 2] [5, 5, 5] "Series" (PlotsMatplotlib.MplColor.named "blue")
    "blue" fcW ts3W [1, 1, 1] [5, 5, 5] [(10, 1), (10, 1), (10, 1)]
    rfl rfl rfl rfl rfl rfl

/-- C10: with an all-zeros mask, the matplotlib and plotly composers still
invoke the point renderer unconditionally — adding one empty
scatter/marker element — while the seaborn composer skips the scatter
call entirely, so the element counts differ for the same input. -/
theorem claim_C10 (ax : PlotsMatplotlib.Axes) (fig : PlotsPlotly.Figure)
    (ts : DataFrame) (ev v0 : List Int) (bounds : List (Int × Int))
    (he : ev.length = ts.index.length)
    (hb : bounds.length = ts.index.length)
    (hv : ts.getCol "value_0" = some v0) :
    (∃ ax', PlotsMatplotlib.add_anomalies ax ts
        (List.replicate ts.index.length 0) ev bounds = Except.ok ax' ∧
      ax'.scatterCount = ax.scatterCount + 1 ∧
      PlotsMatplotlib.Element.scatter [] [] "Anomalies"
        (PlotsMatplotlib.MplColor.named "red") 50 5 ∈ ax'.elements) ∧
    (∃ fig', PlotsPlotly.add_anomalies fig ts
        (List.replicate ts.index.length 0) ev bounds = Except.ok fig' ∧
      fig'.markerTraceCount = fig.markerTraceCount + 1 ∧
      ({ x := [], y := [], mode := "markers", name := "Anomalies",
         lineColor := none, lineWidth := none, fill := none,
         fillcolor := none, showlegend := none, markerColor := some "red",
         markerSize := some 10 } : PlotsPlotly.Trace) ∈ fig'.traces) ∧
    (∃ ax2, PlotsMatplotlib.add_seaborn_anomalies ax ts
        (List.replicate ts.index.length 0) ev bounds = Except.ok ax2 ∧
      ax2.scatterCount = ax.scatterCount) := by
  have hm : (List.replicate ts.index.length (0 : Int)).length =
      ts.index.length := by simp
  refine ⟨⟨_, PlotsMatplotlib.add_anomalies_eq ax ts _ ev bounds v0
      hm he hb hv, ?_, ?_⟩,
    ⟨_, PlotsPlotly.add_anomalies_eq_plotly fig ts _ ev bounds v0
      hm he hb hv, ?_, ?_⟩,
    ⟨_, PlotsMatplotlib.add_seaborn_anomalies_eq ax ts _ ev bounds v0
      hm he hb hv, ?_⟩⟩
  · simp [PlotsMatplotlib.Axes.scatterCount, PlotsMatplotlib.Element.isScatter,
      List.countP_append, List.countP_cons]
  · simp [selectMask_zero]
  · simp [PlotsPlotly.Figure.markerTraceCount, PlotsPlotly.Trace.isMarkers,
      List.countP_append, List.countP_cons]
  · simp [selectMask_zero]
  · simp [selectMask_zero, PlotsMatplotlib.Axes.scatterCount,
      PlotsMatplotlib.Element.isScatter, List.countP_append,
      List.countP_cons]

/-- C10 witness: all-zeros mask over the concrete three-row series — the
matplotlib and plotly composers add an empty marker element, seaborn adds
none. -/
theorem claim_C10_witness :
    (∃ ax', PlotsMatplotlib.add_anomalies axE ts3W [0, 0, 0] [5, 5, 5]
        [(10, 1), (10, 1), (10, 1)] = Except.ok ax' ∧
      ax'.scatterCount = axE.scatterCount + 1 ∧
      PlotsMatplotlib.Element.scatter [] [] "Anomalies"
        (PlotsMatplotlib.MplColor.named "red") 50 5 ∈ ax'.elements) ∧
    (∃ fig', PlotsPlotly.add_anomalies pfigE ts3W [0, 0, 0] [5, 5, 5]
        [(10, 1), (10, 1), (10, 1)] = Except.ok fig' ∧
      fig'.markerTraceCount = pfigE.markerTraceCount + 1 ∧
      ({ x := [], y := [], mode := "markers", name := "Anomalies",
         lineColor := none, lineWidth := none, fill := none,
         fillcolor := none, showlegend := none, markerColor := some "red",
         markerSize := some 10 } : PlotsPlotly.Trace) ∈ fig'.traces) ∧
    (∃ ax2, PlotsMatplotlib.add_seaborn_anomalies axE ts3W [0, 0, 0]
        [5, 5, 5] [(10, 1), (10, 1), (10, 1)] = Except.ok ax2 ∧
      ax2.scatterCount = axE.scatterCount) :=
  claim_C10 axE pfigE ts3W [5, 5, 5] [5, 5, 5]
    [(10, 1), (10, 1), (10, 1)] rfl rfl rfl
